import Mathlib

/-!
Verification of the hardware-wallet plugin core of this repository
(`src/electroncash_plugins/hw_wallet/plugin.py`): the OP_RETURN output
validator, the wallet-close cleanup hook, the optional-dependency guard and
the abstract plugin methods.

Scripts are byte sequences embedded as `List Nat`; Python integers are
embedded as `Int` where negative values are possible; exceptions are embedded
as `Except`/`Option` results.
-/

/-- Modelled from the spec: the OP_RETURN marker opcode value of the script
opcode table (`OpCodes` of the address module, which is not under `src/`).
The spec describes it as "a script marker opcode after which data may be
embedded". -/
def OP_RETURN : Nat := 106

/-- Modelled from the spec: the first opcode whose push length is encoded in
the following byte(s) rather than in the opcode itself (`OpCodes.OP_PUSHDATA1`
of the address module, not under `src/`). -/
def OP_PUSHDATA1 : Nat := 76

/-- Modelled from the spec: push opcode with a two-byte little-endian length. -/
def OP_PUSHDATA2 : Nat := 77

/-- Modelled from the spec: push opcode with a four-byte little-endian length;
also the largest opcode that carries inline push data. -/
def OP_PUSHDATA4 : Nat := 78

/-- Modelled from the spec: the output-kind tag that distinguishes
"pay-to-script" outputs from standard payment outputs (`TYPE_SCRIPT` of the
bitcoin module, not under `src/`). -/
def TYPE_SCRIPT : Nat := 2

/-- A parsed script operation: the opcode together with its optional inline
push data (`None` for non-push operations). -/
abbrev ScriptOp := Nat × Option (List Nat)

/-- Modelled from the spec: read the push-data length for opcode `op` from the
bytes `rest` that follow it.  Opcodes below `OP_PUSHDATA1` encode the length
themselves; `OP_PUSHDATA1`/`2`/`4` read a 1-, 2- or 4-byte little-endian
length.  Returns the length and the remaining bytes, or `none` on a truncated
script. -/
def read_push_len (op : Nat) (rest : List Nat) : Option (Nat × List Nat) :=
  if op < OP_PUSHDATA1 then some (op, rest)
  else if op = OP_PUSHDATA1 then
    match rest with
    | b :: r => some (b, r)
    | [] => none
  else if op = OP_PUSHDATA2 then
    match rest with
    | b0 :: b1 :: r => some (b0 + 256 * b1, r)
    | _ => none
  else
    match rest with
    | b0 :: b1 :: b2 :: b3 :: r =>
        some (b0 + 256 * (b1 + 256 * (b2 + 256 * b3)), r)
    | _ => none

/-- Fuel-indexed scan behind `get_ops`; the fuel only serves termination and
any fuel at least the script length yields the same result. -/
def get_ops_fuel : Nat → List Nat → Option (List ScriptOp)
  | _, [] => some []
  | 0, _ :: _ => none
  | fuel + 1, op :: rest =>
    if op ≤ OP_PUSHDATA4 then
      match read_push_len op rest with
      | none => none
      | some (dlen, r) =>
        if dlen ≤ r.length then
          match get_ops_fuel fuel (r.drop dlen) with
          | none => none
          | some ops => some ((op, some (r.take dlen)) :: ops)
        else none
    else
      match get_ops_fuel fuel rest with
      | none => none
      | some ops => some ((op, none) :: ops)

/-- Modelled from the spec: `Script.get_ops` of the address module (not under
`src/`): "Parse the address's script into an ordered sequence of operations
(opcode + optional inline data).  Parsing is a flat, non-recursive scan of
opcode/length/data triples."  A truncated script yields `none` (the script
error). Each scan step consumes at least the opcode byte, so the script
length is enough fuel. -/
def get_ops (script : List Nat) : Option (List ScriptOp) :=
  get_ops_fuel script.length script

/-- A transaction output as consumed by the validator: the tuple
`(typ, address, amount)` of the source, with the address represented by its
script bytes. -/
structure TxOutput where
  typ : Nat
  script : List Nat
  amount : Int
deriving DecidableEq

/-- The failure kinds of `validate_op_return_output_and_get_data`:
`assertionError` for the failed `assert max_pushes >= 1`, `scriptError` for a
truncated script, and one constructor per raised validation exception. -/
inductive ValidateError
  | assertionError
  | invalidOutputKind
  | scriptError
  | missingMarker
  | tooManyOrInvalidPushes (msg : String)
  | payloadTooLarge
  | nonZeroAmount
deriving DecidableEq

instance {ε α : Type} [DecidableEq ε] [DecidableEq α] : DecidableEq (Except ε α) := fun x y =>
  match x, y with
  | Except.ok a, Except.ok b =>
    if h : a = b then Decidable.isTrue (by rw [h])
    else Decidable.isFalse (fun hc => h (Except.ok.inj hc))
  | Except.error e, Except.error f =>
    if h : e = f then Decidable.isTrue (by rw [h])
    else Decidable.isFalse (fun hc => h (Except.error.inj hc))
  | Except.ok _, Except.error _ => Decidable.isFalse (fun hc => Except.noConfusion hc)
  | Except.error _, Except.ok _ => Decidable.isFalse (fun hc => Except.noConfusion hc)

/-- The singular form of the push-limit error message. -/
def singular_push_message (mp : Int) : String :=
  "OP_RETURN is limited to " ++ toString mp ++ " data push."

/-- The plural form of the push-limit error message. -/
def plural_push_message (mp : Int) : String :=
  "OP_RETURN is limited to " ++ toString mp ++ " data pushes."

/-- The message of the push-limit error, with `ngettext` choosing the singular
form exactly for count 1 (English pluralization) and `format` substituting the
effective `max_pushes`. -/
def push_limit_message (mp : Int) : String :=
  if mp = 1 then singular_push_message mp else plural_push_message mp

/-- The `max_pushes` normalization at the top of
`validate_op_return_output_and_get_data`: `None` is a sentinel and becomes
`max_size`. -/
def effective_max_pushes (max_size : Int) : Option Int → Int
  | none => max_size
  | some m => m

/-- `validate_op_return_output_and_get_data` of
`src/electroncash_plugins/hw_wallet/plugin.py`, embedded with `Except` in
place of raised exceptions.  The branch order follows the source: the
`assert max_pushes >= 1`, the output-kind check, script parsing, the
OP_RETURN marker check, the push-count/push-validity check, the payload-size
check, the amount check, and finally the return of `address.script[2:]`. -/
def validate_op_return_output_and_get_data (output : TxOutput)
    (max_size : Int) (max_pushes : Option Int) :
    Except ValidateError (List Nat) :=
  if effective_max_pushes max_size max_pushes < 1 then
    Except.error ValidateError.assertionError
  else if output.typ ≠ TYPE_SCRIPT then
    Except.error ValidateError.invalidOutputKind
  else
    match get_ops output.script with
    | none => Except.error ValidateError.scriptError
    | some ops =>
      if ops.length < 1 ∨ ops.headI.1 ≠ OP_RETURN then
        Except.error ValidateError.missingMarker
      else if (ops.length : Int) - 1 < 1 ∨
          effective_max_pushes max_size max_pushes < (ops.length : Int) - 1 ∨
          ∃ op ∈ ops.tail, op.2 = none then
        Except.error (ValidateError.tooManyOrInvalidPushes
          (push_limit_message (effective_max_pushes max_size max_pushes)))
      else if max_size < ((output.script.drop 2).length : Int) then
        Except.error ValidateError.payloadTooLarge
      else if output.amount ≠ 0 then
        Except.error ValidateError.nonZeroAmount
      else
        Except.ok (output.script.drop 2)

/-- The single-byte length encoding of a data push whose payload fits in a
direct-length opcode: the payload length as the opcode byte, then the payload. -/
def push_encoding (p : List Nat) : List Nat := p.length :: p

/-- Concatenated encodings of a sequence of direct-length data pushes. -/
def encode_pushes : List (List Nat) → List Nat
  | [] => []
  | p :: rest => push_encoding p ++ encode_pushes rest

/-- A script of the form `OP_RETURN push_1 … push_k` with direct-length push
encodings. -/
def op_return_script (pushes : List (List Nat)) : List Nat :=
  OP_RETURN :: encode_pushes pushes

/-- A wallet keystore as seen by `HW_PluginBase.close_wallet`: whether
`isinstance(keystore, self.keystore_class)` holds, the keystore's xpub, and
whether `callable(getattr(keystore.thread, 'stop', None))` holds. -/
structure Keystore where
  is_plugin_keystore : Bool
  xpub : String
  has_stop_method : Bool
deriving DecidableEq

/-- The observable effects of the wallet-close hook on its collaborators. -/
inductive CleanupEvent
  | unpairXpub (xpub : String)
  | stopThread (xpub : String)
deriving DecidableEq

/-- Modelled from the spec: the state of the external collaborators of the
wallet-close hook — the device manager's xpub registry and the set of running
background workers, keyed by xpub. -/
structure DeviceWorld where
  paired_xpubs : List String
  running_workers : List String
deriving DecidableEq

/-- Modelled from the spec: `DeviceMgr.unpair_xpub` (not under `src/`) —
"idempotent: unpairing an already-unpaired xpub is a no-op, not an error". -/
def unpair_xpub (w : DeviceWorld) (x : String) : DeviceWorld :=
  { w with paired_xpubs := w.paired_xpubs.filter fun y => !(y == x) }

/-- Modelled from the spec: `keystore.thread.stop()` (the worker lives in the
UI layer, not under `src/`) — stopping "must be idempotent". -/
def stop_thread (w : DeviceWorld) (x : String) : DeviceWorld :=
  { w with running_workers := w.running_workers.filter fun y => !(y == x) }

/-- `HW_PluginBase._cleanup_keystore_extra`: stop the keystore's worker thread
when it exposes a callable `stop`; absence of that capability is not an
error. -/
def cleanup_keystore_extra (w : DeviceWorld) (k : Keystore) :
    DeviceWorld × List CleanupEvent :=
  if k.has_stop_method then
    (stop_thread w k.xpub, [CleanupEvent.stopThread k.xpub])
  else (w, [])

/-- One iteration of the `close_wallet` loop: keystores of other types are
skipped; a matching keystore is first unpaired, then its worker is cleaned
up. -/
def close_wallet_step (w : DeviceWorld) (k : Keystore) :
    DeviceWorld × List CleanupEvent :=
  if k.is_plugin_keystore then
    let w1 := unpair_xpub w k.xpub
    let we := cleanup_keystore_extra w1 k
    (we.1, CleanupEvent.unpairXpub k.xpub :: we.2)
  else (w, [])

/-- `HW_PluginBase.close_wallet`: iterate over the wallet's keystores in
order, producing the final collaborator state and the trace of effects. -/
def close_wallet (w : DeviceWorld) : List Keystore → DeviceWorld × List CleanupEvent
  | [] => (w, [])
  | k :: rest =>
    let we := close_wallet_step w k
    let rec' := close_wallet we.1 rest
    (rec'.1, we.2 ++ rec'.2)

/-- The events contributed by a single keystore, for stating trace facts. -/
def keystore_events (k : Keystore) : List CleanupEvent :=
  if k.is_plugin_keystore then
    CleanupEvent.unpairXpub k.xpub ::
      (if k.has_stop_method then [CleanupEvent.stopThread k.xpub] else [])
  else []

/-- The per-plugin state read by the optional-dependency guard. -/
structure PluginState where
  libraries_available : Bool

/-- `only_hook_if_libraries_available`: wrap a hook-style entry point so that
it returns `None` without running when the plugin's required libraries are
missing, and otherwise defers to the wrapped function. -/
def only_hook_if_libraries_available {α β : Type}
    (func : PluginState → α → Option β) : PluginState → α → Option β :=
  fun self args =>
    if self.libraries_available then func self args else none

/-- The fault taxonomy relevant to the abstract plugin methods: a
`NotImplementedError` is a programming error, distinct from the recoverable
device-communication failures. -/
inductive PluginFault
  | programmingError
  | deviceError
  | connectionError
deriving DecidableEq

/-- `HW_PluginBase.setup_device`: the base implementation raises
`NotImplementedError` for every argument list. -/
def HW_PluginBase_setup_device {A B C : Type} (device_info : A) (wizard : B)
    (purpose : C) : Except PluginFault Unit :=
  Except.error PluginFault.programmingError

/-- `HW_PluginBase.create_client`: the base implementation raises
`NotImplementedError` for every argument list. -/
def HW_PluginBase_create_client {D H R : Type} (device : D) (handler : H) :
    Except PluginFault (Option R) :=
  Except.error PluginFault.programmingError

/-- `HW_PluginBase.get_xpub`: the base implementation raises
`NotImplementedError` for every argument list. -/
def HW_PluginBase_get_xpub {D X W : Type} (device_id : D) (derivation : String)
    (xtype : X) (wizard : W) : Except PluginFault String :=
  Except.error PluginFault.programmingError

theorem length_singular_suffix : (" data push." : String).length = 11 := rfl

theorem length_plural_suffix : (" data pushes." : String).length = 13 := rfl

theorem singular_push_message_ne_plural (mp : Int) :
    singular_push_message mp ≠ plural_push_message mp := by
  intro h
  have hl := congrArg String.length h
  rw [singular_push_message, plural_push_message, String.length_append,
    String.length_append, String.length_append, String.length_append,
    length_singular_suffix, length_plural_suffix] at hl
  omega

theorem push_limit_message_eq_singular_iff (mp : Int) :
    push_limit_message mp = singular_push_message mp ↔ mp = 1 := by
  constructor
  · intro h
    by_contra hne
    rw [push_limit_message, if_neg hne] at h
    exact singular_push_message_ne_plural mp h.symm
  · intro h
    rw [push_limit_message, if_pos h]

theorem get_ops_fuel_encode_pushes (pushes : List (List Nat)) :
    ∀ fuel, (encode_pushes pushes).length ≤ fuel →
    (∀ p ∈ pushes, p.length ≤ 75) →
    get_ops_fuel fuel (encode_pushes pushes) =
      some (pushes.map fun p => (p.length, some p)) := by
  induction pushes with
  | nil =>
    intro fuel _ _
    cases fuel <;> rfl
  | cons p rest ih =>
    intro fuel hf hp
    have hlen : (encode_pushes (p :: rest)).length =
        1 + p.length + (encode_pushes rest).length := by
      simp [encode_pushes, push_encoding]
      omega
    cases fuel with
    | zero => omega
    | succ f =>
      have hp75 : p.length ≤ 75 := hp p (List.mem_cons_self p rest)
      show get_ops_fuel (f + 1) (push_encoding p ++ encode_pushes rest) = _
      rw [push_encoding, List.cons_append, get_ops_fuel]
      rw [if_pos (by rw [OP_PUSHDATA4]; omega), read_push_len.eq_def,
        if_pos (by rw [OP_PUSHDATA1]; omega)]
      simp only
      rw [if_pos (by rw [List.length_append]; omega)]
      rw [List.take_left, List.drop_left]
      rw [ih f (by omega) (fun q hq => hp q (List.mem_cons_of_mem p hq))]
      rfl

theorem get_ops_op_return_script (pushes : List (List Nat))
    (hp : ∀ p ∈ pushes, p.length ≤ 75) :
    get_ops (op_return_script pushes) =
      some ((OP_RETURN, none) :: pushes.map fun p => (p.length, some p)) := by
  rw [get_ops, op_return_script, List.length_cons, get_ops_fuel]
  rw [if_neg (by rw [OP_RETURN, OP_PUSHDATA4]; omega)]
  rw [get_ops_fuel_encode_pushes pushes (encode_pushes pushes).length le_rfl hp]

/-- Claim C1 (counterexample): on the spec's own example — script
`OP_RETURN 0x02 "hi"`, amount 0, `max_size = 220`, `max_pushes = 1` — the
validator returns the two payload bytes `68 69`, not the claimed
length-prefixed bytes `02 68 69`: the byte `data = script[2:]` excludes the
first push's length prefix. -/
theorem validate_example_returns_payload_without_length_prefix :
    validate_op_return_output_and_get_data ⟨TYPE_SCRIPT, [106, 2, 104, 105], 0⟩
      220 (some 1) = Except.ok [104, 105] ∧
    validate_op_return_output_and_get_data ⟨TYPE_SCRIPT, [106, 2, 104, 105], 0⟩
      220 (some 1) ≠ Except.ok [2, 104, 105] := by
  constructor
  · decide
  · decide

/-- Claim C1 (amended): for every script-kind output of amount zero whose
script is `OP_RETURN` followed by `1 <= k <= max_pushes` direct-length data
pushes, with the script bytes after the first two totalling at most
`max_size`, the validator returns exactly the script bytes after the marker
opcode and the first push's length prefix (the pure function is
deterministic). -/
theorem validate_wellformed_op_return_script (output : TxOutput)
    (max_size mp : Int) (pushes : List (List Nat))
    (htyp : output.typ = TYPE_SCRIPT)
    (hscript : output.script = op_return_script pushes)
    (hamt : output.amount = 0)
    (hk1 : 1 ≤ pushes.length)
    (hk2 : (pushes.length : Int) ≤ mp)
    (hp : ∀ p ∈ pushes, p.length ≤ 75)
    (hsize : ((output.script.drop 2).length : Int) ≤ max_size) :
    validate_op_return_output_and_get_data output max_size (some mp) =
      Except.ok (output.script.drop 2) := by
  have hparse : get_ops output.script =
      some ((OP_RETURN, none) :: pushes.map fun p => (p.length, some p)) := by
    rw [hscript]
    exact get_ops_op_return_script pushes hp
  have h0 : ¬ effective_max_pushes max_size (some mp) < 1 := by
    simp only [effective_max_pushes]
    omega
  have h1 : ¬ output.typ ≠ TYPE_SCRIPT := by
    rw [htyp]
    exact fun h => h rfl
  rw [validate_op_return_output_and_get_data, if_neg h0, if_neg h1]
  simp only [hparse]
  rw [if_neg ?c2]
  rw [if_neg ?c3]
  rw [if_neg ?c5]
  rw [if_neg ?c6]
  case c2 => simp [List.headI]
  case c3 =>
    simp only [List.length_cons, List.length_map, List.tail_cons,
      effective_max_pushes]
    push_cast
    rintro (h | h | ⟨op, hop, h4⟩)
    · omega
    · omega
    · obtain ⟨p, hmem, rfl⟩ := List.mem_map.1 hop
      exact Option.noConfusion h4
  case c5 => omega
  case c6 =>
    rw [hamt]
    exact fun h => h rfl

theorem validate_wellformed_op_return_script_witness :
    validate_op_return_output_and_get_data
      ⟨TYPE_SCRIPT, op_return_script [[104, 105]], 0⟩ 220 (some 1) =
      Except.ok ((op_return_script [[104, 105]]).drop 2) :=
  validate_wellformed_op_return_script _ 220 1 [[104, 105]] rfl rfl rfl
    (by decide) (by decide) (by decide) (by decide)

/-- Claim C2: for every script-kind output whose parsed script does not have
the OP_RETURN marker opcode as its first operation (including the empty
script), the validator fails with the missing-marker rejection, regardless of
what follows in the script. -/
theorem validate_missing_marker (output : TxOutput) (max_size : Int)
    (max_pushes : Option Int) (ops : List ScriptOp)
    (hmp : 1 ≤ effective_max_pushes max_size max_pushes)
    (htyp : output.typ = TYPE_SCRIPT)
    (hparse : get_ops output.script = some ops)
    (hmarker : ops = [] ∨ ops.headI.1 ≠ OP_RETURN) :
    validate_op_return_output_and_get_data output max_size max_pushes =
      Except.error ValidateError.missingMarker := by
  have h0 : ¬ effective_max_pushes max_size max_pushes < 1 := by omega
  have h1 : ¬ output.typ ≠ TYPE_SCRIPT := by
    rw [htyp]
    exact fun h => h rfl
  rw [validate_op_return_output_and_get_data, if_neg h0, if_neg h1]
  simp only [hparse]
  rw [if_pos ?hc]
  case hc =>
    rcases hmarker with h | h
    · left
      rw [h]
      exact Nat.zero_lt_one
    · right
      exact h

theorem validate_missing_marker_witness :
    validate_op_return_output_and_get_data ⟨TYPE_SCRIPT, [81], 0⟩ 220 (some 1) =
      Except.error ValidateError.missingMarker :=
  validate_missing_marker ⟨TYPE_SCRIPT, [81], 0⟩ 220 (some 1) [(81, none)]
    (by decide) rfl (by decide) (Or.inr (by decide))

/-- Claim C3: for every script-kind output whose parsed script starts with the
OP_RETURN marker followed by `k` further operations, if `k = 0`, or `k`
exceeds the effective `max_pushes`, or any of those operations carries no
inline push data, the validator fails with the push-limit rejection, and the
error message uses the singular form exactly when the effective `max_pushes`
equals 1. -/
theorem validate_push_limit (output : TxOutput) (max_size mp : Int)
    (max_pushes : Option Int) (d : Option (List Nat)) (tl : List ScriptOp)
    (heff : effective_max_pushes max_size max_pushes = mp)
    (hmp : 1 ≤ mp)
    (htyp : output.typ = TYPE_SCRIPT)
    (hparse : get_ops output.script = some ((OP_RETURN, d) :: tl))
    (hbad : tl.length = 0 ∨ mp < (tl.length : Int) ∨ ∃ op ∈ tl, op.2 = none) :
    validate_op_return_output_and_get_data output max_size max_pushes =
      Except.error (ValidateError.tooManyOrInvalidPushes (push_limit_message mp)) ∧
    (push_limit_message mp = singular_push_message mp ↔ mp = 1) := by
  have h0 : ¬ effective_max_pushes max_size max_pushes < 1 := by omega
  have h1 : ¬ output.typ ≠ TYPE_SCRIPT := by
    rw [htyp]
    exact fun h => h rfl
  refine ⟨?_, push_limit_message_eq_singular_iff mp⟩
  rw [validate_op_return_output_and_get_data, if_neg h0, if_neg h1]
  simp only [hparse]
  rw [if_neg ?hm]
  rw [if_pos ?hc]
  rw [heff]
  case hm => simp [List.headI]
  case hc =>
    rw [List.tail_cons, List.length_cons, heff]
    push_cast
    rcases hbad with h | h | h
    · left
      omega
    · right
      left
      omega
    · right
      right
      exact h

theorem validate_push_limit_witness :
    validate_op_return_output_and_get_data ⟨TYPE_SCRIPT, [106], 0⟩ 220 (some 1) =
      Except.error (ValidateError.tooManyOrInvalidPushes (push_limit_message 1)) :=
  (validate_push_limit ⟨TYPE_SCRIPT, [106], 0⟩ 220 1 (some 1) none []
    rfl (by decide) rfl (by decide) (Or.inl rfl)).1

/-- Claim C4: for every script-kind output that passes the marker and
push-count checks, if the extracted payload (the script bytes after the first
two) is longer than `max_size` bytes, the validator fails with the
payload-too-large rejection, even when the number of pushes is within the
`max_pushes` bound. -/
theorem validate_payload_too_large (output : TxOutput) (max_size mp : Int)
    (max_pushes : Option Int) (d : Option (List Nat)) (tl : List ScriptOp)
    (heff : effective_max_pushes max_size max_pushes = mp)
    (hmp : 1 ≤ mp)
    (htyp : output.typ = TYPE_SCRIPT)
    (hparse : get_ops output.script = some ((OP_RETURN, d) :: tl))
    (hk1 : 1 ≤ tl.length)
    (hk2 : (tl.length : Int) ≤ mp)
    (hpush : ∀ op ∈ tl, op.2 ≠ none)
    (hsize : max_size < ((output.script.drop 2).length : Int)) :
    validate_op_return_output_and_get_data output max_size max_pushes =
      Except.error ValidateError.payloadTooLarge := by
  have h0 : ¬ effective_max_pushes max_size max_pushes < 1 := by omega
  have h1 : ¬ output.typ ≠ TYPE_SCRIPT := by
    rw [htyp]
    exact fun h => h rfl
  rw [validate_op_return_output_and_get_data, if_neg h0, if_neg h1]
  simp only [hparse]
  rw [if_neg ?hm]
  rw [if_neg ?hc]
  rw [if_pos hsize]
  case hm => simp [List.headI]
  case hc =>
    rw [List.tail_cons, List.length_cons, heff]
    push_cast
    rintro (h | h | ⟨op, hop, h3⟩)
    · omega
    · omega
    · exact hpush op hop h3

theorem validate_payload_too_large_witness :
    validate_op_return_output_and_get_data ⟨TYPE_SCRIPT, [106, 2, 104, 105], 0⟩
      1 (some 1) = Except.error ValidateError.payloadTooLarge :=
  validate_payload_too_large ⟨TYPE_SCRIPT, [106, 2, 104, 105], 0⟩ 1 1 (some 1)
    none [(2, some [104, 105])] rfl (by decide) rfl (by decide) (by decide)
    (by decide) (by decide) (by decide)

/-- Claim C5: for every script-kind output that passes the marker, push-count
and size checks, if the amount is nonzero the validator fails with the
nonzero-amount rejection; in particular, a script-wise valid OP_RETURN output
with amount 546 is rejected this way (see the witness). -/
theorem validate_nonzero_amount (output : TxOutput) (max_size mp : Int)
    (max_pushes : Option Int) (d : Option (List Nat)) (tl : List ScriptOp)
    (heff : effective_max_pushes max_size max_pushes = mp)
    (hmp : 1 ≤ mp)
    (htyp : output.typ = TYPE_SCRIPT)
    (hparse : get_ops output.script = some ((OP_RETURN, d) :: tl))
    (hk1 : 1 ≤ tl.length)
    (hk2 : (tl.length : Int) ≤ mp)
    (hpush : ∀ op ∈ tl, op.2 ≠ none)
    (hsize : ((output.script.drop 2).length : Int) ≤ max_size)
    (hamt : output.amount ≠ 0) :
    validate_op_return_output_and_get_data output max_size max_pushes =
      Except.error ValidateError.nonZeroAmount := by
  have h0 : ¬ effective_max_pushes max_size max_pushes < 1 := by omega
  have h1 : ¬ output.typ ≠ TYPE_SCRIPT := by
    rw [htyp]
    exact fun h => h rfl
  rw [validate_op_return_output_and_get_data, if_neg h0, if_neg h1]
  simp only [hparse]
  rw [if_neg ?hm]
  rw [if_neg ?hc]
  rw [if_neg ?hs]
  rw [if_pos hamt]
  case hm => simp [List.headI]
  case hc =>
    rw [List.tail_cons, List.length_cons, heff]
    push_cast
    rintro (h | h | ⟨op, hop, h3⟩)
    · omega
    · omega
    · exact hpush op hop h3
  case hs => omega

theorem validate_nonzero_amount_witness :
    validate_op_return_output_and_get_data ⟨TYPE_SCRIPT, [106, 2, 104, 105], 546⟩
      220 (some 1) = Except.error ValidateError.nonZeroAmount :=
  validate_nonzero_amount ⟨TYPE_SCRIPT, [106, 2, 104, 105], 546⟩ 220 1 (some 1)
    none [(2, some [104, 105])] rfl (by decide) rfl (by decide) (by decide)
    (by decide) (by decide) (by decide) (by decide)

/-- Claim C6: for every output and `max_size`, calling the validator with
`max_pushes = None` produces exactly the same result — returned bytes or
rejection — as calling it with `max_pushes = max_size`. -/
theorem validate_none_max_pushes_eq_max_size (output : TxOutput)
    (max_size : Int) :
    validate_op_return_output_and_get_data output max_size none =
      validate_op_return_output_and_get_data output max_size (some max_size) :=
  rfl

/-- Claim C10 (counterexample): with `max_pushes = None` and `max_size = 0`
the normalized push cap is 0 and the `assert max_pushes >= 1` fires even
though `max_pushes` is `None`, on an otherwise perfectly valid OP_RETURN
output — so the assertion branch is reachable under the claimed
precondition. -/
theorem validate_assert_fires_with_none_max_pushes :
    validate_op_return_output_and_get_data ⟨TYPE_SCRIPT, [106, 2, 104, 105], 0⟩
      0 none = Except.error ValidateError.assertionError := by decide

/-- Claim C10 (amended): for every call with an explicit `max_pushes` below 1
the validator fails with the assertion fault before performing any of the
documented validation steps (for every output, even one of the wrong kind,
and every `max_size`); and whenever the effective `max_pushes` — `max_size`
when `max_pushes` is `None` — is at least 1, the assertion branch is
unreachable. -/
theorem validate_assertion_guard (output : TxOutput) (max_size : Int)
    (max_pushes : Option Int) :
    ((∃ m, max_pushes = some m ∧ m < 1) →
      validate_op_return_output_and_get_data output max_size max_pushes =
        Except.error ValidateError.assertionError) ∧
    (1 ≤ effective_max_pushes max_size max_pushes →
      validate_op_return_output_and_get_data output max_size max_pushes ≠
        Except.error ValidateError.assertionError) := by
  constructor
  · rintro ⟨m, rfl, hm⟩
    rw [validate_op_return_output_and_get_data,
      if_pos (show effective_max_pushes max_size (some m) < 1 from hm)]
  · intro hge heq
    rw [validate_op_return_output_and_get_data, if_neg (by omega)] at heq
    repeat' split at heq
    all_goals simp at heq

theorem validate_assertion_guard_witness :
    validate_op_return_output_and_get_data ⟨0, [], 5⟩ 220 (some 0) =
      Except.error ValidateError.assertionError ∧
    validate_op_return_output_and_get_data ⟨0, [], 5⟩ 220 (some 1) ≠
      Except.error ValidateError.assertionError :=
  ⟨(validate_assertion_guard ⟨0, [], 5⟩ 220 (some 0)).1 ⟨0, rfl, by decide⟩,
   (validate_assertion_guard ⟨0, [], 5⟩ 220 (some 1)).2 (by decide)⟩

theorem filter_idempotent {α : Type} (p : α → Bool) (l : List α) :
    (l.filter p).filter p = l.filter p := by
  induction l with
  | nil => rfl
  | cons a t ih =>
    cases h : p a <;> simp [List.filter_cons, h, ih]

theorem close_wallet_step_snd (w : DeviceWorld) (k : Keystore) :
    (close_wallet_step w k).2 = keystore_events k := by
  cases hk : k.is_plugin_keystore <;>
    cases hs : k.has_stop_method <;>
      simp [close_wallet_step, cleanup_keystore_extra, keystore_events, hk, hs]

theorem close_wallet_snd (ks : List Keystore) :
    ∀ w, (close_wallet w ks).2 = (ks.map keystore_events).flatten := by
  induction ks with
  | nil => intro _; rfl
  | cons k rest ih =>
    intro w
    simp only [close_wallet, List.map_cons, List.flatten_cons]
    rw [close_wallet_step_snd, ih]

/-- The predicate by which one loop iteration filters the paired-xpub
registry. -/
def step_paired_pred (k : Keystore) : String → Bool :=
  if k.is_plugin_keystore then (fun y => !(y == k.xpub)) else (fun _ => true)

/-- The predicate by which one loop iteration filters the running workers. -/
def step_worker_pred (k : Keystore) : String → Bool :=
  if k.is_plugin_keystore && k.has_stop_method then (fun y => !(y == k.xpub))
  else (fun _ => true)

theorem close_wallet_step_fst (w : DeviceWorld) (k : Keystore) :
    (close_wallet_step w k).1 =
      ⟨w.paired_xpubs.filter (step_paired_pred k),
       w.running_workers.filter (step_worker_pred k)⟩ := by
  cases hk : k.is_plugin_keystore <;>
    cases hs : k.has_stop_method <;>
      simp [close_wallet_step, cleanup_keystore_extra, unpair_xpub, stop_thread,
        step_paired_pred, step_worker_pred, hk, hs]

theorem close_wallet_state_filter (ks : List Keystore) :
    ∃ p q : String → Bool, ∀ w : DeviceWorld,
      (close_wallet w ks).1 =
        ⟨w.paired_xpubs.filter p, w.running_workers.filter q⟩ := by
  induction ks with
  | nil =>
    refine ⟨fun _ => true, fun _ => true, fun w => ?_⟩
    simp [close_wallet]
  | cons k rest ih =>
    obtain ⟨p, q, hpq⟩ := ih
    refine ⟨fun y => p y && step_paired_pred k y,
      fun y => q y && step_worker_pred k y, fun w => ?_⟩
    show (close_wallet (close_wallet_step w k).1 rest).1 = _
    rw [hpq, close_wallet_step_fst]
    simp [List.filter_filter]

theorem close_wallet_no_match (ks : List Keystore) :
    ∀ w, (∀ k ∈ ks, k.is_plugin_keystore = false) →
      close_wallet w ks = (w, []) := by
  induction ks with
  | nil => intro _ _; rfl
  | cons k rest ih =>
    intro w hall
    have hk : ¬ (k.is_plugin_keystore = true) := by
      rw [hall k (List.mem_cons_self k rest)]
      simp
    simp only [close_wallet, close_wallet_step, if_neg hk]
    rw [ih w (fun k' hk' => hall k' (List.mem_cons_of_mem k hk'))]
    rfl

/-- Claim C7: on wallet close, for every keystore matching the plugin's
keystore class the device manager's unpair of that keystore's xpub happens
(immediately) before its background worker is stopped; a worker-stop effect
occurs only for a matching keystore exposing a callable stop capability
(absence is not an error — the model is total); unpair effects occur only for
matching keystores, so keystores of other types are untouched; the hook is a
no-op on a wallet with zero matching keystores; and invoking the hook twice
in a row is well-defined and produces the same state and trace again (the
spec-modelled collaborators are idempotent, so nothing raises). -/
theorem close_wallet_cleanup_spec (w : DeviceWorld) (ks : List Keystore) :
    (∀ k ∈ ks, k.is_plugin_keystore = true → k.has_stop_method = true →
      ∃ l1 l2, (close_wallet w ks).2 =
        l1 ++ CleanupEvent.unpairXpub k.xpub ::
          CleanupEvent.stopThread k.xpub :: l2) ∧
    (∀ x, CleanupEvent.stopThread x ∈ (close_wallet w ks).2 →
      ∃ k ∈ ks, k.is_plugin_keystore = true ∧ k.has_stop_method = true ∧
        k.xpub = x) ∧
    (∀ x, CleanupEvent.unpairXpub x ∈ (close_wallet w ks).2 →
      ∃ k ∈ ks, k.is_plugin_keystore = true ∧ k.xpub = x) ∧
    ((∀ k ∈ ks, k.is_plugin_keystore = false) → close_wallet w ks = (w, [])) ∧
    close_wallet (close_wallet w ks).1 ks = close_wallet w ks := by
  refine ⟨?_, ?_, ?_, close_wallet_no_match ks w, ?_⟩
  · intro k hk hmatch hstop
    obtain ⟨pre, post, rfl⟩ := List.append_of_mem hk
    rw [close_wallet_snd, List.map_append, List.map_cons, List.flatten_append,
      List.flatten_cons]
    refine ⟨(pre.map keystore_events).flatten, (post.map keystore_events).flatten, ?_⟩
    rw [keystore_events, if_pos hmatch, if_pos hstop]
    simp
  · intro x hx
    rw [close_wallet_snd, List.mem_flatten] at hx
    obtain ⟨l, hl, hxl⟩ := hx
    obtain ⟨k, hk, rfl⟩ := List.mem_map.1 hl
    refine ⟨k, hk, ?_⟩
    cases hm : k.is_plugin_keystore <;> cases hs : k.has_stop_method <;>
      simp [keystore_events, hm, hs] at hxl ⊢
    exact hxl.symm
  · intro x hx
    rw [close_wallet_snd, List.mem_flatten] at hx
    obtain ⟨l, hl, hxl⟩ := hx
    obtain ⟨k, hk, rfl⟩ := List.mem_map.1 hl
    refine ⟨k, hk, ?_⟩
    cases hm : k.is_plugin_keystore <;> cases hs : k.has_stop_method <;>
      simp [keystore_events, hm, hs] at hxl ⊢
    · exact hxl.symm
    · exact hxl.symm
  · obtain ⟨p, q, h⟩ := close_wallet_state_filter ks
    rw [Prod.ext_iff]
    constructor
    · rw [h w, h ⟨w.paired_xpubs.filter p, w.running_workers.filter q⟩]
      simp only [filter_idempotent]
    · rw [close_wallet_snd, close_wallet_snd]

theorem close_wallet_cleanup_spec_witness :
    ∃ l1 l2,
      (close_wallet ⟨["a", "b"], ["a", "b"]⟩
        [⟨true, "a", true⟩, ⟨false, "b", true⟩]).2 =
        l1 ++ CleanupEvent.unpairXpub "a" :: CleanupEvent.stopThread "a" :: l2 :=
  (close_wallet_cleanup_spec ⟨["a", "b"], ["a", "b"]⟩
    [⟨true, "a", true⟩, ⟨false, "b", true⟩]).1 ⟨true, "a", true⟩
    (by decide) rfl rfl

/-- Claim C8: an operation wrapped by the optional-dependency guard returns an
absent result without invoking the underlying function when the plugin's
required-libraries flag is false (the result does not depend on the wrapped
function), and returns exactly the underlying function's result on the same
arguments when the flag is true. -/
theorem only_hook_guard_spec {α β : Type} (func : PluginState → α → Option β)
    (self : PluginState) (args : α) :
    (self.libraries_available = false →
      only_hook_if_libraries_available func self args = none ∧
      ∀ g : PluginState → α → Option β,
        only_hook_if_libraries_available func self args =
          only_hook_if_libraries_available g self args) ∧
    (self.libraries_available = true →
      only_hook_if_libraries_available func self args = func self args) := by
  constructor
  · intro h
    constructor
    · simp [only_hook_if_libraries_available, h]
    · intro g
      simp [only_hook_if_libraries_available, h]
  · intro h
    simp [only_hook_if_libraries_available, h]

theorem only_hook_guard_spec_witness :
    only_hook_if_libraries_available (fun _ n => some (n + 1)) ⟨false⟩ (5 : Nat) =
      none ∧
    only_hook_if_libraries_available (fun _ n => some (n + 1)) ⟨true⟩ (5 : Nat) =
      some 6 :=
  ⟨((only_hook_guard_spec (fun _ n => some (n + 1)) ⟨false⟩ 5).1 rfl).1,
   (only_hook_guard_spec (fun _ n => some (n + 1)) ⟨true⟩ 5).2 rfl⟩

/-- Claim C9: for every argument list, the base plugin's `setup_device`,
`create_client` and `get_xpub` fail with the programming-error fault
(`NotImplementedError`), which is distinct from the recoverable device and
connection error kinds; concrete vendor variants must therefore override
them. -/
theorem base_plugin_abstract_methods (A B C D H R E X W : Type)
    (device_info : A) (wizard : B) (purpose : C) (device : D) (handler : H)
    (device_id : E) (derivation : String) (xtype : X) (wizard' : W) :
    HW_PluginBase_setup_device device_info wizard purpose =
      Except.error PluginFault.programmingError ∧
    @HW_PluginBase_create_client D H R device handler =
      Except.error PluginFault.programmingError ∧
    HW_PluginBase_get_xpub device_id derivation xtype wizard' =
      Except.error PluginFault.programmingError ∧
    PluginFault.programmingError ≠ PluginFault.deviceError ∧
    PluginFault.programmingError ≠ PluginFault.connectionError :=
  ⟨rfl, rfl, rfl, by decide, by decide⟩
